import Mathlib

/-!
Verification development for the pascal_challenge backend (Python sources
under src/).  Each Python function relevant to the checked properties is
shallowly embedded as an executable Lean definition; database queries are
modelled as pure functions over explicit lists of rows, Redis state as an
explicit value, and machine integers / datetimes as Nat / Int (seconds,
days).  Conventions:

* Python Optional fields become Option in Lean; SQL NULL comparison
  semantics (a NULL column never satisfies a comparison predicate) are
  made explicit at each use.
* Python truthiness tests (if value:) are modelled by explicit functions
  (0, None, and the empty string are falsy).
* Unicode note: str.lower is modelled on the ASCII letters A-Z; every
  string the theorems below evaluate is either already lower-case or
  ASCII, and the accented Spanish letters appearing in keyword lists are
  already lower-case in the source.
-/

/-! ## String helpers shared by several modules -/

/-- ASCII lower-casing of a single character (model of str.lower). -/
def asciiLower (c : Char) : Char :=
  if c.toNat >= 65 && c.toNat <= 90 then Char.ofNat (c.toNat + 32) else c

/-- Lower-case a string (model of Python str.lower restricted to ASCII). -/
def strLower (s : String) : String :=
  ⟨s.data.map asciiLower⟩

/-- Does the character list hay contain needle as a contiguous sublist?
    (model of the Python in operator on strings). -/
def listContainsSub (hay needle : List Char) : Bool :=
  match hay with
  | [] => needle.isEmpty
  | _ :: t => needle.isPrefixOf hay || listContainsSub t needle

/-- Substring containment on strings (Python: needle in hay). -/
def strContains (hay needle : String) : Bool :=
  listContainsSub hay.data needle.data

/-- Does the lower-cased text contain any of the given keywords?
    (Python: any(kw in text_lower for kw in kws)). -/
def containsAny (textLower : String) (kws : List String) : Bool :=
  kws.any (fun kw => strContains textLower kw)

/-! ## ScheduleAgent._extract_datetime, day-offset part
    (src/src/ai/agents/schedule.py, lines 36-66)

    The function starts from datetime.now(); only the day selection is
    relevant here, so the embedding returns the offset in days added to
    the current date (none models the Python None returned for Sunday
    requests).  weekday is now.weekday() (0 = Monday .. 6 = Sunday). -/

/-- Python (target - now.weekday()) % 7 or 7 for the weekday branches. -/
def daysAhead (target : Int) (weekday : Int) : Int :=
  let d := (target - weekday) % 7
  if d = 0 then 7 else d

/-- Day-offset selection of ScheduleAgent._extract_datetime: the if/elif
    chain over message_lower from schedule.py lines 39-66, returning the
    number of days added to now (none for the domingo branch). -/
def extract_datetime_day_offset (weekday : Int) (message : String) : Option Int :=
  let ml := strLower message
  if strContains ml "mañana" && !strContains ml "por la" then
    some 1
  else if strContains ml "pasado mañana" then
    some 2
  else if strContains ml "lunes" then
    some (daysAhead 0 weekday)
  else if strContains ml "martes" then
    some (daysAhead 1 weekday)
  else if strContains ml "miércoles" || strContains ml "miercoles" then
    some (daysAhead 2 weekday)
  else if strContains ml "jueves" then
    some (daysAhead 3 weekday)
  else if strContains ml "viernes" then
    some (daysAhead 4 weekday)
  else if strContains ml "sábado" || strContains ml "sabado" then
    some (daysAhead 5 weekday)
  else if strContains ml "domingo" then
    none
  else
    some 1

/-! ## Appointment rows and AppointmentRepository.check_availability
    (src/src/database/repositories/appointments.py, lines 103-131)

    Appointments are rows of the appointments table; datetimes are
    modelled as seconds (Int), ids as Nat.  scheduled_for is a nullable
    column, and a NULL column never satisfies a SQL comparison, which the
    window test makes explicit. -/

structure Appointment where
  id : Nat
  lead_id : Option Nat := none
  conversation_id : Option Nat := none
  project_id : Option Nat := none
  property_id : Option Nat := none
  scheduled_for : Option Int := none
  notes : Option String := none
  deriving Repr, DecidableEq

/-- SQL row predicate of the check_availability query: scheduled_for
    within the closed window, and, when a project id was passed (Python
    truthiness: a UUID is never falsy), project_id equal to it. -/
def availabilityConflict (startW endW : Int) (project_id : Option Nat)
    (a : Appointment) : Bool :=
  (match a.scheduled_for with
   | some s => decide (startW ≤ s) && decide (s ≤ endW)
   | none => false) &&
  (match project_id with
   | some p => a.project_id == some p
   | none => true)

/-- AppointmentRepository.check_availability: true iff the query for
    appointments within plus/minus one hour (3600 s) of the requested
    time, optionally restricted to the project, returns no row. -/
def check_availability (appts : List Appointment) (scheduled_for : Int)
    (project_id : Option Nat := none) : Bool :=
  let startW := scheduled_for - 3600
  let endW := scheduled_for + 3600
  (appts.find? (availabilityConflict startW endW project_id)).isNone

/-! ## BaseRepository.update and LeadRepository.update
    (src/src/database/repositories/base.py lines 49-55,
     src/src/database/repositories/leads.py lines 64-70)

    An ORM entity is modelled as its attribute map: a list of
    (attribute name, nullable value) pairs; kwargs likewise. -/

abbrev Entity := List (String × Option String)

/-- Python hasattr(entity, key). -/
def hasAttr (e : Entity) (k : String) : Bool :=
  e.any (fun p => p.1 == k)

/-- Python setattr(entity, key, value): the slot of that attribute gets
    the new value, every other slot is untouched. -/
def setAttr : Entity → String → Option String → Entity
  | [], _, _ => []
  | p :: t, k, v => (if p.1 == k then (p.1, v) else p) :: setAttr t k v

/-- Python getattr(entity, key) as an Option (none when absent). -/
def getAttr (e : Entity) (k : String) : Option (Option String) :=
  (e.find? (fun p => p.1 == k)).map (fun p => p.2)

/-- BaseRepository.update: each kwarg is written only when the entity has
    the attribute and the value is not None. -/
def base_update (e : Entity) (kwargs : List (String × Option String)) : Entity :=
  kwargs.foldl
    (fun acc kv =>
      if hasAttr acc kv.1 && kv.2.isSome then setAttr acc kv.1 kv.2 else acc)
    e

/-- LeadRepository.update (overrides the base method): each kwarg is
    written whenever the entity has the attribute, value is not None
    checked nowhere, so None values overwrite too. -/
def lead_update (e : Entity) (kwargs : List (String × Option String)) : Entity :=
  kwargs.foldl
    (fun acc kv => if hasAttr acc kv.1 then setAttr acc kv.1 kv.2 else acc)
    e

/-! ## PUT /api/appointments route handler
    (src/src/api/routes/appointments.py, lines 126-158)

    The handler is modelled as a function from the appointments table and
    the request to (HTTP error status if raised, table afterwards).
    data.scheduled_for is a datetime | None and a datetime object is
    always truthy, so the Python guard `data.scheduled_for and
    data.scheduled_for != appointment.scheduled_for` is: present and
    different from the stored value. -/

/-- The repo.update(...) call of the handler, through
    BaseRepository.update semantics (None kwargs are skipped). -/
def applyAppointmentUpdate (a : Appointment) (newSched : Option Int)
    (newNotes : Option String) : Appointment :=
  { a with
    scheduled_for := match newSched with
      | some t => some t
      | none => a.scheduled_for
    notes := match newNotes with
      | some n => some n
      | none => a.notes }

/-- update_appointment route: returns (some status, table) when an
    HTTPException with that status is raised (table unchanged), and
    (none, updated table) on success. -/
def update_appointment (db : List Appointment) (appointment_id : Nat)
    (newSched : Option Int) (newNotes : Option String) :
    Option Nat × List Appointment :=
  match db.find? (fun a => a.id == appointment_id) with
  | none => (some 404, db)
  | some apt =>
    let conflict := match newSched with
      | some t =>
        !(some t == apt.scheduled_for) && !(check_availability db t apt.project_id)
      | none => false
    if conflict then
      (some 409, db)
    else
      (none,
       db.map (fun a =>
         if a.id == appointment_id then applyAppointmentUpdate a newSched newNotes
         else a))

/-! ## ConversationCache (src/src/cache/conversation_cache.py)

    The Redis list behind one conversation key is modelled explicitly:
    its items and its time-to-live.  json.dumps on the CachedMessage
    dataclass followed by json.loads in get_history is a faithful
    round-trip on this flat record, so items are stored unserialized. -/

structure CachedMessage where
  role : String
  content : String
  timestamp : Option String := none
  deriving Repr, DecidableEq

structure ConvKeyState where
  items : List CachedMessage
  ttl : Option Nat := none
  deriving Repr, DecidableEq

/-- ConversationCache.add_message: RPUSH the message, LTRIM to the last
    max_messages entries (negative-index trim keeps the suffix), then
    EXPIRE the key to 86400 seconds. -/
def add_message (max_messages : Nat) (s : ConvKeyState) (m : CachedMessage) :
    ConvKeyState :=
  let pushed := s.items ++ [m]
  { items := pushed.drop (pushed.length - max_messages), ttl := some 86400 }

/-- ConversationCache.get_history: LRANGE 0 -1, decoding every entry
    (decoding never fails on entries written by add_message). -/
def get_history (s : ConvKeyState) : List CachedMessage :=
  s.items

/-! ## MD5 (model of Python hashlib.md5, RFC 1321)

    SearchCache hashes the normalized query and filter serialization with
    MD5 and keeps the first 12 hex characters.  The digest is computed
    here over Nat with explicit reduction mod 2^32. -/

def u32mod : Nat := 4294967296

def add32 (a b : Nat) : Nat := (a + b) % u32mod

def not32 (x : Nat) : Nat := Nat.xor x 4294967295

def rotl32 (x c : Nat) : Nat :=
  ((x <<< c) % u32mod) + (x >>> (32 - c))

/-- MD5 per-round sine constants floor(abs(sin(i+1)) * 2^32). -/
def md5K : List Nat := [
    3614090360, 3905402710, 606105819, 3250441966,
    4118548399, 1200080426, 2821735955, 4249261313,
    1770035416, 2336552879, 4294925233, 2304563134,
    1804603682, 4254626195, 2792965006, 1236535329,
    4129170786, 3225465664, 643717713, 3921069994,
    3593408605, 38016083, 3634488961, 3889429448,
    568446438, 3275163606, 4107603335, 1163531501,
    2850285829, 4243563512, 1735328473, 2368359562,
    4294588738, 2272392833, 1839030562, 4259657740,
    2763975236, 1272893353, 4139469664, 3200236656,
    681279174, 3936430074, 3572445317, 76029189,
    3654602809, 3873151461, 530742520, 3299628645,
    4096336452, 1126891415, 2878612391, 4237533241,
    1700485571, 2399980690, 4293915773, 2240044497,
    1873313359, 4264355552, 2734768916, 1309151649,
    4149444226, 3174756917, 718787259, 3951481745]

/-- MD5 per-round left-rotation amounts. -/
def md5S : List Nat := [
    7, 12, 17, 22, 7, 12, 17, 22, 7, 12, 17, 22, 7, 12, 17, 22,
    5, 9, 14, 20, 5, 9, 14, 20, 5, 9, 14, 20, 5, 9, 14, 20,
    4, 11, 16, 23, 4, 11, 16, 23, 4, 11, 16, 23, 4, 11, 16, 23,
    6, 10, 15, 21, 6, 10, 15, 21, 6, 10, 15, 21, 6, 10, 15, 21]

/-- Little-endian byte decomposition (n bytes). -/
def leBytes (n : Nat) (x : Nat) : List Nat :=
  (List.range n).map (fun i => (x >>> (8 * i)) % 256)

/-- Little-endian 32-bit word from up to 4 bytes. -/
def leWord (bs : List Nat) : Nat :=
  bs.foldr (fun b acc => acc * 256 + b) 0

/-- MD5 padding: append 0x80, zero bytes to 56 mod 64, then the 64-bit
    little-endian bit length. -/
def md5Pad (msg : List Nat) : List Nat :=
  let len := msg.length
  let zeros := (119 - len % 64) % 64
  msg ++ [128] ++ List.replicate zeros 0 ++ leBytes 8 ((len * 8) % 2 ^ 64)

/-- One MD5 round i over message words M and state (a, b, c, d). -/
def md5Round (M : List Nat) (st : Nat × Nat × Nat × Nat) (i : Nat) :
    Nat × Nat × Nat × Nat :=
  let (a, b, c, d) := st
  let fg : Nat × Nat :=
    if i < 16 then (Nat.lor (Nat.land b c) (Nat.land (not32 b) d), i)
    else if i < 32 then (Nat.lor (Nat.land d b) (Nat.land (not32 d) c), (5 * i + 1) % 16)
    else if i < 48 then (Nat.xor (Nat.xor b c) d, (3 * i + 5) % 16)
    else (Nat.xor c (Nat.lor b (not32 d)), (7 * i) % 16)
  let f := add32 (add32 (add32 fg.1 a) (md5K.getD i 0)) (M.getD fg.2 0)
  (d, add32 b (rotl32 f (md5S.getD i 0)), b, c)

/-- MD5 compression over the padded byte list (64-byte chunks). -/
def md5Core (padded : List Nat) : Nat × Nat × Nat × Nat :=
  (List.range (padded.length / 64)).foldl
    (fun st k =>
      let M := (List.range 16).map
        (fun j => leWord (((padded.drop (64 * k + 4 * j))).take 4))
      let r := (List.range 64).foldl (md5Round M) st
      (add32 st.1 r.1, add32 st.2.1 r.2.1, add32 st.2.2.1 r.2.2.1,
       add32 st.2.2.2 r.2.2.2))
    (1732584193, 4023233417, 2562383102, 271733878)

/-- UTF-8 encoding of one character (as Python str.encode()). -/
def utf8Bytes (c : Char) : List Nat :=
  let n := c.toNat
  if n < 128 then [n]
  else if n < 2048 then [192 + n / 64, 128 + n % 64]
  else if n < 65536 then [224 + n / 4096, 128 + (n / 64) % 64, 128 + n % 64]
  else [240 + n / 262144, 128 + (n / 4096) % 64, 128 + (n / 64) % 64, 128 + n % 64]

/-- UTF-8 encoding of a string as a byte list. -/
def strUtf8 (s : String) : List Nat :=
  (s.data.map utf8Bytes).flatten

def hexDigit (n : Nat) : Char :=
  if n < 10 then Char.ofNat (48 + n) else Char.ofNat (87 + n)

def byteHexChars (b : Nat) : List Char :=
  [hexDigit (b / 16), hexDigit (b % 16)]

/-- Hex digest of the MD5 of a string (UTF-8 encoded), as
    hashlib.md5(content.encode()).hexdigest(). -/
def md5Hex (s : String) : String :=
  let r := md5Core (md5Pad (strUtf8 s))
  ⟨((leBytes 4 r.1 ++ leBytes 4 r.2.1 ++ leBytes 4 r.2.2.1 ++
     leBytes 4 r.2.2.2).map byteHexChars).flatten⟩

/-! ## SearchCache (src/src/cache/search_cache.py)

    Filters are dict values of string or int type; the Redis string store
    is modelled as an association list from key to the stored record
    (json.dumps at set and json.loads at get round-trip on it). -/

inductive FilterValue where
  | str (s : String)
  | int (n : Int)
  deriving Repr, DecidableEq

/-- Python whitespace characters recognized by str.split(). -/
def isPySpace (c : Char) : Bool :=
  c == ' ' || c == '\t' || c == '\n' || c == '\x0B' || c == '\x0C' || c == '\r'

/-- str.split() with no argument: split on whitespace runs, no empties. -/
def splitWsAux : List Char → List Char → List String
  | [], acc => if acc.isEmpty then [] else [⟨acc.reverse⟩]
  | c :: t, acc =>
    if isPySpace c then
      if acc.isEmpty then splitWsAux t [] else ⟨acc.reverse⟩ :: splitWsAux t []
    else
      splitWsAux t (c :: acc)

/-- SearchCache._normalize_query: " ".join(query.lower().strip().split());
    the strip is absorbed by the whitespace split. -/
def normalize_query (query : String) : String :=
  String.intercalate " " (splitWsAux (strLower query).data [])

/-- JSON string escaping as json.dumps (quote and backslash; control
    characters do not occur in the strings handled here). -/
def jsonEscape (s : String) : String :=
  ⟨s.data.foldr
    (fun c acc =>
      if c == '"' then '\\' :: '"' :: acc
      else if c == '\\' then '\\' :: '\\' :: acc
      else c :: acc)
    []⟩

def jsonOfString (s : String) : String := "\"" ++ jsonEscape s ++ "\""

def jsonOfValue : FilterValue → String
  | .str s => jsonOfString s
  | .int n => toString n

/-- json.dumps of a list of (key, value) tuples with default separators:
    a JSON array of two-element arrays. -/
def dumpsPairs (fs : List (String × FilterValue)) : String :=
  "[" ++ String.intercalate ", "
    (fs.map (fun p => "[" ++ jsonOfString p.1 ++ ", " ++ jsonOfValue p.2 ++ "]"))
    ++ "]"

/-- Insertion into a key-sorted list (keys of a dict are distinct, so
    comparing keys alone models Python sorted on the item tuples). -/
def insertByKey (x : String × FilterValue) :
    List (String × FilterValue) → List (String × FilterValue)
  | [] => [x]
  | y :: t => if decide (y.1 < x.1) then y :: insertByKey x t else x :: y :: t

/-- sorted(filters.items()). -/
def sortFilters (fs : List (String × FilterValue)) : List (String × FilterValue) :=
  fs.foldr insertByKey []

/-- SearchCache._generate_cache_key: "search:" followed by the first 12
    hex characters of md5(normalizedQuery ++ ":" ++ sortedFiltersJSON);
    the filter serialization is empty for an absent or empty dict. -/
def generate_cache_key (query : String)
    (filters : List (String × FilterValue)) : String :=
  let normalized := normalize_query query
  let filtersStr := if filters.isEmpty then "" else dumpsPairs (sortFilters filters)
  "search:" ++ (md5Hex (normalized ++ ":" ++ filtersStr)).take 12

/-- The record stored by SearchCache.set (results kept structured: the
    JSON encode/decode pair round-trips on it). -/
structure CacheEntryData (α : Type) where
  query : String
  filters : List (String × FilterValue)
  results : List α
  timestamp : String

/-- SearchCache.set: SET of the record under the generated key (an
    earlier binding of the same key is shadowed). -/
def cache_set {α : Type} (store : List (String × CacheEntryData α))
    (query : String) (results : List α)
    (filters : List (String × FilterValue)) (now : String) :
    List (String × CacheEntryData α) :=
  (generate_cache_key query filters,
   { query := normalize_query query, filters := filters,
     results := results, timestamp := now }) :: store

/-- SearchCache.get: GET under the generated key, returning the results
    field of the parsed record. -/
def cache_get {α : Type} (store : List (String × CacheEntryData α))
    (query : String) (filters : List (String × FilterValue)) :
    Option (List α) :=
  (store.find? (fun p => p.1 == generate_cache_key query filters)).map
    (fun p => p.2.results)

/-! ## Regex machinery for PropertySearchAgent
    (src/src/ai/agents/property_search.py)

    re.search is modelled as a left-to-right scan that applies a
    position matcher at every suffix and returns the first success. -/

/-- re.search for a pattern whose position matcher needs no left
    context: first suffix at which the matcher succeeds. -/
def reSearchFirst {α : Type} (f : List Char → Option α) : List Char → Option α
  | [] => f []
  | c :: t =>
    match f (c :: t) with
    | some v => some v
    | none => reSearchFirst f t

/-- re.search for a pattern matcher that also inspects the preceding
    character (needed for word boundaries). -/
def reSearchPrev {α : Type} (f : Option Char → List Char → Option α) :
    Option Char → List Char → Option α
  | prev, [] => f prev []
  | prev, c :: t =>
    match f prev (c :: t) with
    | some v => some v
    | none => reSearchPrev f (some c) t

def isDigitCh (c : Char) : Bool := c.isDigit

/-- Python regex word character: [a-zA-Z0-9_], and any non-ASCII
    codepoint (the str patterns are Unicode-aware). -/
def isWordCh (c : Char) : Bool :=
  c.isAlphanum || c == '_' || decide (c.toNat > 127)

def digitsToNat (ds : List Char) : Nat :=
  ds.foldl (fun a c => a * 10 + (c.toNat - 48)) 0

/-- Group (\d{n})[,.](\d{3}) with the first group of exactly n digits;
    used with n = 3 then n = 2 for the greedy {2,3}. -/
def groupedAtLen (n : Nat) (cs : List Char) : Option Nat :=
  let g1 := cs.take n
  if g1.length = n && g1.all isDigitCh then
    match cs.drop n with
    | sep :: r2 =>
      if sep == ',' || sep == '.' then
        let g2 := r2.take 3
        if g2.length = 3 && g2.all isDigitCh then
          some (digitsToNat (g1 ++ g2))
        else none
      else none
    | [] => none
  else none

/-- Position matcher for the first price pattern
    \$?\s*(\d{2,3})[,.](\d{3}): int(m.group(1) + m.group(2)). -/
def matchGrouped (cs : List Char) : Option Nat :=
  let cs := match cs with
    | '$' :: t => t
    | _ => cs
  let cs := cs.dropWhile isPySpace
  (groupedAtLen 3 cs).orElse (fun _ => groupedAtLen 2 cs)

/-- (\d{n})\s*(?:mil|k|M) with the group of exactly n digits, under
    re.IGNORECASE: int(m.group(1)) * 1000. -/
def shortAtLen (n : Nat) (cs : List Char) : Option Nat :=
  let g1 := cs.take n
  if g1.length = n && g1.all isDigitCh then
    let rest := (cs.drop n).dropWhile isPySpace
    let low := rest.map asciiLower
    if ['m', 'i', 'l'].isPrefixOf low || ['k'].isPrefixOf low
        || ['m'].isPrefixOf low then
      some (digitsToNat g1 * 1000)
    else none
  else none

/-- Position matcher for the second price pattern
    (\d{2,3})\s*(?:mil|k|M). -/
def matchShort (cs : List Char) : Option Nat :=
  (shortAtLen 3 cs).orElse (fun _ => shortAtLen 2 cs)

/-- \b(\d{n})\b with the group of exactly n digits. -/
def bareAtLen (n : Nat) (cs : List Char) : Option Nat :=
  let g := cs.take n
  if g.length = n && g.all isDigitCh then
    match cs.drop n with
    | [] => some (digitsToNat g)
    | c :: _ => if isWordCh c then none else some (digitsToNat g)
  else none

/-- Position matcher for the third price pattern \b(\d{5,6})\b; the
    left word boundary checks the preceding character. -/
def matchBare (prev : Option Char) (cs : List Char) : Option Nat :=
  if (match prev with | some p => isWordCh p | none => false) then none
  else (bareAtLen 6 cs).orElse (fun _ => bareAtLen 5 cs)

/-- The price_patterns loop of _extract_filters_from_text: the patterns
    are tried in order and the first one that matches anywhere wins. -/
def priceFromText (text : String) : Option Nat :=
  match reSearchFirst matchGrouped text.data with
  | some p => some p
  | none =>
    match reSearchFirst matchShort text.data with
    | some p => some p
    | none => reSearchPrev matchBare none text.data

/-! ## PropertySearchAgent filter extraction
    (src/src/ai/agents/property_search.py, lines 50-162) -/

/-- PropertySearchAgent.BEDROOM_PATTERNS. -/
def BEDROOM_PATTERNS : List (String × Int) := [
  ("1 dormitorio", 1), ("1 habitación", 1), ("1 cuarto", 1), ("1br", 1), ("un dormitorio", 1),
  ("2 dormitorios", 2), ("2 habitaciones", 2), ("2 cuartos", 2), ("2br", 2), ("dos dormitorios", 2),
  ("3 dormitorios", 3), ("3 habitaciones", 3), ("3 cuartos", 3), ("3br", 3), ("tres dormitorios", 3),
  ("4 dormitorios", 4), ("4 habitaciones", 4), ("4 cuartos", 4), ("4br", 4), ("cuatro dormitorios", 4),
  ("studio", 0), ("estudio", 0)]

/-- PropertySearchAgent.DISTRICTS. -/
def DISTRICTS : List (String × String) := [
  ("miraflores", "Miraflores"),
  ("san isidro", "San Isidro"),
  ("surco", "Santiago de Surco"),
  ("santiago de surco", "Santiago de Surco"),
  ("barranco", "Barranco"),
  ("magdalena", "Magdalena del Mar"),
  ("jesus maria", "Jesús María"),
  ("jesús maría", "Jesús María"),
  ("lince", "Lince"),
  ("la molina", "La Molina"),
  ("surquillo", "Surquillo")]

/-- The filters dictionary: a key is present (some) only when extracted;
    project_id is read by the repositories but never set by the agent
    (the assignment in the source is commented out). -/
structure Filters where
  num_bedrooms : Option Int := none
  district : Option String := none
  max_price : Option Int := none
  min_price : Option Int := none
  property_type : Option String := none
  project_id : Option Nat := none
  deriving Repr, DecidableEq

/-- Directional keywords mapping the matched price to max_price. -/
def maxPriceKeywords : List String :=
  ["menos de", "máximo", "hasta", "no más de", "tope"]

/-- Directional keywords mapping the matched price to min_price. -/
def minPriceKeywords : List String :=
  ["más de", "mínimo", "desde", "al menos"]

/-- PropertySearchAgent._extract_filters_from_text. -/
def extract_filters_from_text (text : String) : Filters :=
  let tl := strLower text
  let nb := (BEDROOM_PATTERNS.find? (fun p => strContains tl p.1)).map (fun p => p.2)
  let di := (DISTRICTS.find? (fun p => strContains tl p.1)).map (fun p => p.2)
  let prices : Option Int × Option Int :=
    match priceFromText text with
    | some price =>
      if containsAny tl maxPriceKeywords then (some (Int.ofNat price), none)
      else if containsAny tl minPriceKeywords then (none, some (Int.ofNat price))
      else (some (Int.ofNat price), none)
    | none => (none, none)
  let pt :=
    if containsAny tl ["departamento", "depa", "apartamento"] then some "departamento"
    else if containsAny tl ["casa", "chalet"] then some "casa"
    else if containsAny tl ["oficina"] then some "oficina"
    else none
  { num_bedrooms := nb, district := di, max_price := prices.1,
    min_price := prices.2, property_type := pt }

/-- Python dict.update: keys present in the newer dict override. -/
def mergeFilters (old new : Filters) : Filters :=
  { num_bedrooms := (new.num_bedrooms).orElse (fun _ => old.num_bedrooms),
    district := (new.district).orElse (fun _ => old.district),
    max_price := (new.max_price).orElse (fun _ => old.max_price),
    min_price := (new.min_price).orElse (fun _ => old.min_price),
    property_type := (new.property_type).orElse (fun _ => old.property_type),
    project_id := (new.project_id).orElse (fun _ => old.project_id) }

/-- PropertySearchAgent._extract_filters_from_message: filters from user
    history messages (role, content), oldest first, then the current
    message with highest priority. -/
def extract_filters_from_message (message : String)
    (history : List (String × String)) : Filters :=
  let acc := history.foldl
    (fun acc msg =>
      if msg.1 == "user" then mergeFilters acc (extract_filters_from_text msg.2)
      else acc)
    {}
  mergeFilters acc (extract_filters_from_text message)

/-! ## PropertySearchAgent._extract_property_id_from_message and the
    direct-lookup branch of PropertySearchAgent.search
    (src/src/ai/agents/property_search.py, lines 30-48 and 164-209) -/

/-- Hexadecimal character of the UUID pattern [0-9a-fA-F]. -/
def isHexCh (c : Char) : Bool :=
  c.isDigit || (97 ≤ (asciiLower c).toNat && (asciiLower c).toNat ≤ 102)

/-- Exactly n hex characters, returning them and the rest. -/
def takeHexGroup (n : Nat) (cs : List Char) : Option (List Char × List Char) :=
  let g := cs.take n
  if g.length = n && g.all isHexCh then some (g, cs.drop n) else none

/-- Position matcher for the standard-form UUID pattern
    8-4-4-4-12 hex groups separated by dashes. -/
def matchUuidAt (cs : List Char) : Option (List Char) := do
  let (g1, r1) ← takeHexGroup 8 cs
  match r1 with
  | '-' :: r1 => do
    let (g2, r2) ← takeHexGroup 4 r1
    match r2 with
    | '-' :: r2 => do
      let (g3, r3) ← takeHexGroup 4 r2
      match r3 with
      | '-' :: r3 => do
        let (g4, r4) ← takeHexGroup 4 r3
        match r4 with
        | '-' :: r4 => do
          let (g5, _) ← takeHexGroup 12 r4
          pure (g1 ++ '-' :: g2 ++ '-' :: g3 ++ '-' :: g4 ++ '-' :: g5)
        | _ => none
      | _ => none
    | _ => none
  | _ => none

/-- PropertySearchAgent._extract_property_id_from_message: the first
    standard-form UUID in the message; the UUID constructor normalizes
    to lower case and cannot fail on a string the pattern accepted. -/
def extract_property_id (message : String) : Option String :=
  (reSearchFirst matchUuidAt message.data).map (fun cs => ⟨cs.map asciiLower⟩)

/-- The methods RAGSearchService actually defines
    (src/src/ai/rag/search.py; get_property_by_id is not among them). -/
def ragServiceMethods : List String :=
  ["search_properties", "search_projects", "get_project_by_name",
   "get_properties_for_project"]

/-- Control skeleton of PropertySearchAgent.search up to the first
    external call.  When the message contains a UUID, line 180 resolves
    the attribute get_property_by_id on the RAG service, which
    ragServiceMethods does not contain, so the call raises
    AttributeError (modelled as the error case); the then-branch of the
    membership test is dead code kept only so that the embedding records
    where the source would continue.  Otherwise the agent proceeds to
    the filter extraction and the RAG path with those filters. -/
def agent_search_step (message : String) (history : List (String × String)) :
    Except String Filters :=
  match extract_property_id message with
  | some _ =>
    if ragServiceMethods.contains "get_property_by_id" then
      Except.error "unreachable"
    else
      Except.error
        "AttributeError: RAGSearchService object has no attribute get_property_by_id"
  | none => Except.ok (extract_filters_from_message message history)

/-! ## Project rows and ProjectRepository.get_by_name
    (src/src/database/repositories/projects.py, lines 29-34;
    the name and district columns are nullable). -/

structure Project where
  id : Nat
  name : Option String := none
  district : Option String := none
  deriving Repr, DecidableEq

/-- SQL ILIKE with a pattern wrapped in percent signs: case-insensitive
    substring test; NULL columns match nothing. -/
def ilikeContains (column : Option String) (pat : String) : Bool :=
  match column with
  | some s => strContains (strLower s) (strLower pat)
  | none => false

/-- ProjectRepository.get_by_name: select rows whose name ILIKE the
    wrapped argument, then scalar_one_or_none, which returns the row
    when there is exactly one, None when there is none, and raises
    MultipleResultsFound when there are several. -/
def get_by_name (projects : List Project) (name : String) :
    Except String (Option Project) :=
  match projects.filter (fun p => ilikeContains p.name name) with
  | [] => Except.ok none
  | [p] => Except.ok (some p)
  | _ => Except.error "MultipleResultsFound"

/-! ## Property rows and PropertyRepository search methods
    (src/src/database/repositories/properties.py, lines 90-187)

    Rows carry their joined typology and project (the joins in the
    source are inner joins, so a NULL relation fails the joined
    condition).  The pgvector cosine-distance ordering of
    search_by_embedding is abstracted as an arbitrary per-row distance
    the rows are sorted by, which the claims below quantify over. -/

structure Typology where
  id : Nat
  num_bedrooms : Option Int := none
  deriving Repr, DecidableEq

structure PropertyRow where
  id : Nat
  pricing : Option Int := none
  project_id : Option Nat := none
  embedding : Option (List Int) := none
  typology : Option Typology := none
  project : Option Project := none
  deriving Repr, DecidableEq

/-- Python truthiness of a nullable int dict entry (None and 0 falsy). -/
def truthyOptInt : Option Int → Bool
  | none => false
  | some n => !(n == 0)

/-- Python truthiness of a nullable string dict entry. -/
def truthyOptStr : Option String → Bool
  | none => false
  | some s => !(s == "")

/-- Python truthiness of a nullable UUID dict entry (never 0). -/
def truthyOptNat : Option Nat → Bool
  | none => false
  | some _ => true

/-- The conjunction of the conditions list built by search_by_embedding
    and search_by_filters: a condition is appended only when its dict
    entry is truthy, so an entry equal to 0 adds nothing. -/
def filtersCond (f : Filters) (r : PropertyRow) : Bool :=
  (if truthyOptInt f.max_price then
     match r.pricing, f.max_price with
     | some pr, some m => decide (pr ≤ m)
     | _, _ => false
   else true) &&
  (if truthyOptInt f.min_price then
     match r.pricing, f.min_price with
     | some pr, some m => decide (pr ≥ m)
     | _, _ => false
   else true) &&
  (if truthyOptNat f.project_id then r.project_id == f.project_id else true) &&
  (if truthyOptInt f.num_bedrooms then
     match r.typology with
     | some ty => ty.num_bedrooms == f.num_bedrooms
     | none => false
   else true) &&
  (if truthyOptStr f.district then
     match r.project with
     | some proj =>
       match f.district with
       | some q => ilikeContains proj.district q
       | none => false
     | none => false
   else true)

/-- PropertyRepository.search_by_filters: conditions, OFFSET, LIMIT. -/
def search_by_filters (rows : List PropertyRow) (f : Filters)
    (skip : Nat := 0) (limit : Nat := 20) : List PropertyRow :=
  (((rows.filter (filtersCond f)).drop skip).take limit)

/-- PropertyRepository.search_by_embedding: restrict to rows with a
    non-null embedding, apply the same conditions, order by the given
    per-row distance (pgvector cosine distance to the query embedding),
    LIMIT. -/
def search_by_embedding (dist : PropertyRow → Int) (rows : List PropertyRow)
    (f : Filters) (limit : Nat := 5) : List PropertyRow :=
  (((rows.filter (fun r => r.embedding.isSome && filtersCond f r)).mergeSort
      (fun a b => decide (dist a ≤ dist b))).take limit)

/-! ## Derived specification predicates -/

/-- A row conflicting with a requested time t under an optional project
    restriction: its scheduled_for lies in the closed interval
    [t - 1 h, t + 1 h] and, when a project is given, it belongs to it. -/
def ConflictsWith (t : Int) (p : Option Nat) (a : Appointment) : Prop :=
  (∃ s, a.scheduled_for = some s ∧ t - 3600 ≤ s ∧ s ≤ t + 3600) ∧
  (∀ q, p = some q → a.project_id = some q)

/-! ## Supporting lemmas -/

/-- The Boolean row predicate of the availability query agrees with the
    conflict predicate. -/
theorem availabilityConflict_iff (t : Int) (p : Option Nat) (a : Appointment) :
    availabilityConflict (t - 3600) (t + 3600) p a = true ↔ ConflictsWith t p a := by
  unfold availabilityConflict ConflictsWith
  cases hs : a.scheduled_for <;> cases p <;> simp [hs]

set_option maxRecDepth 8000 in
/-- MD5 test vector of RFC 1321: digest of "abc" (sanity check of the
    hash model). -/
theorem md5Hex_rfc1321_abc :
    md5Hex "abc" = "900150983cd24fb0d6963f7d28e17f72" := by
  decide

/-- getAttr on a cons cell. -/
theorem getAttr_cons (p : String × Option String) (t : Entity) (k : String) :
    getAttr (p :: t) k = if p.1 == k then some p.2 else getAttr t k := by
  simp only [getAttr, List.find?_cons]
  cases hp : (p.1 == k) <;> simp [hp]

/-- hasAttr on a cons cell. -/
theorem hasAttr_cons (p : String × Option String) (t : Entity) (k : String) :
    hasAttr (p :: t) k = (p.1 == k || hasAttr t k) := by
  simp [hasAttr]

/-- Setting one attribute leaves every other attribute unchanged. -/
theorem getAttr_setAttr_ne (k1 k : String) (v : Option String) (h : k1 ≠ k) :
    ∀ e : Entity, getAttr (setAttr e k1 v) k = getAttr e k := by
  intro e
  induction e with
  | nil => rfl
  | cons p t ih =>
    show getAttr ((if p.1 == k1 then (p.1, v) else p) :: setAttr t k1 v) k
        = getAttr (p :: t) k
    by_cases hp : (p.1 == k1) = true
    · have hpk : (p.1 == k) = false := by
        rw [beq_eq_false_iff_ne]
        intro hh
        exact h (by rw [← beq_iff_eq.mp hp, hh])
      rw [if_pos hp, getAttr_cons, getAttr_cons]
      simp [hpk, ih]
    · rw [if_neg hp, getAttr_cons, getAttr_cons]
      cases hk : (p.1 == k) <;> simp [ih]

/-- Setting an attribute the entity has makes getAttr return the new
    value. -/
theorem getAttr_setAttr_self (k : String) (v : Option String) :
    ∀ e : Entity, hasAttr e k = true → getAttr (setAttr e k v) k = some v := by
  intro e
  induction e with
  | nil => intro h; simp [hasAttr] at h
  | cons p t ih =>
    intro h
    show getAttr ((if p.1 == k then (p.1, v) else p) :: setAttr t k v) k = some v
    by_cases hp : (p.1 == k) = true
    · rw [if_pos hp, getAttr_cons]
      simp [hp]
    · rw [if_neg hp, getAttr_cons]
      rw [hasAttr_cons] at h
      simp only [hp] at h ⊢
      simp only [Bool.false_or] at h
      simp [ih h]

/-- BaseRepository.update frame: an attribute that occurs in kwargs only
    with value None, or not at all, keeps its prior value. -/
theorem base_update_frame (e : Entity) (kwargs : List (String × Option String))
    (k : String) (h : ∀ v, (k, v) ∈ kwargs → v = none) :
    getAttr (base_update e kwargs) k = getAttr e k := by
  induction kwargs generalizing e with
  | nil => rfl
  | cons kv rest ih =>
    have hrest : ∀ v, (k, v) ∈ rest → v = none := by
      intro v hv
      exact h v (List.mem_cons_of_mem _ hv)
    show getAttr
        (base_update
          (if hasAttr e kv.1 && kv.2.isSome then setAttr e kv.1 kv.2 else e) rest) k
      = getAttr e k
    by_cases hk : kv.1 = k
    · have hv2 : kv.2 = none := by
        apply h kv.2
        have : kv = (k, kv.2) := by
          rw [← hk]
        rw [← this]
        exact List.mem_cons_self _ _
      rw [hv2]
      simp only [Option.isSome_none, Bool.and_false, Bool.false_eq_true, ite_false]
      exact ih e hrest
    · by_cases hc : (hasAttr e kv.1 && kv.2.isSome) = true
      · simp only [hc, ite_true]
        rw [ih _ hrest]
        exact getAttr_setAttr_ne kv.1 k kv.2 hk e
      · simp only [Bool.not_eq_true] at hc
        simp only [hc, Bool.false_eq_true, ite_false]
        exact ih e hrest

/-- BaseRepository.update writes an attribute supplied with a non-None
    value. -/
theorem base_update_overwrite (e : Entity) (k : String) (v : String)
    (h : hasAttr e k = true) :
    getAttr (base_update e [(k, some v)]) k = some (some v) := by
  show getAttr (if hasAttr e k && (some v).isSome then setAttr e k (some v) else e) k
      = some (some v)
  simp only [h, Option.isSome_some, Bool.and_self, ite_true]
  exact getAttr_setAttr_self k (some v) e h

/-- LeadRepository.update writes even a None value over an attribute the
    entity has. -/
theorem lead_update_null_overwrites (e : Entity) (k : String)
    (h : hasAttr e k = true) :
    getAttr (lead_update e [(k, none)]) k = some none := by
  show getAttr (if hasAttr e k then setAttr e k none else e) k = some none
  simp only [h, ite_true]
  exact getAttr_setAttr_self k none e h

/-! ## Claim theorems -/

/-- Claim C1.  The claim says a message containing the UUID of an
    existing property short-circuits to a PROPERTY_INFO response over
    that property.  The code cannot do so: line 180 of property_search.py
    calls self.rag_service.get_property_by_id, an attribute
    RAGSearchService does not define, so whenever the UUID pattern
    matches (existing property or not, before any database access) the
    search raises AttributeError instead of producing any response. -/
theorem C1_uuid_direct_lookup_attribute_error :
    extract_property_id
      "quiero info de la propiedad 123e4567-e89b-12d3-a456-426614174000" =
      some "123e4567-e89b-12d3-a456-426614174000" ∧
    ragServiceMethods.contains "get_property_by_id" = false ∧
    agent_search_step
      "quiero info de la propiedad 123e4567-e89b-12d3-a456-426614174000" [] =
      Except.error
        "AttributeError: RAGSearchService object has no attribute get_property_by_id" :=
  ⟨by decide, by decide, by rfl⟩

/-- Claim C2.  The claim says text containing "mañana" without "por la"
    maps to tomorrow (confirmed at a concrete input below) and that text
    containing "pasado mañana" maps to two days ahead.  The second part
    fails: "pasado mañana" contains "mañana" as a substring, so unless
    the message also contains "por la" the first branch of the if/elif
    chain fires and yields tomorrow (+1), not +2; the dedicated
    "pasado mañana" branch is reachable only together with "por la". -/
theorem C2_pasado_manana_offsets :
    (∀ weekday : Int,
      extract_datetime_day_offset weekday "pasado mañana" = some 1) ∧
    (∀ weekday : Int,
      extract_datetime_day_offset weekday "pasado mañana a las 3" = some 1) ∧
    (∀ weekday : Int,
      extract_datetime_day_offset weekday "pasado mañana por la tarde" = some 2) ∧
    (∀ weekday : Int,
      extract_datetime_day_offset weekday "mañana a las 10" = some 1) :=
  ⟨fun _ => rfl, fun _ => rfl, fun _ => rfl, fun _ => rfl⟩

/-- Claim C3.  check_availability returns true iff no existing
    appointment (restricted to the project when one is given) has
    scheduled_for within the closed interval [t - 1 h, t + 1 h]; in
    particular, with an appointment at 10:00 (36000 s) for project 1, a
    request for 10:45 at project 1 is refused, one for 12:00:01 at
    project 1 is accepted, and one for 10:30 at project 2 is accepted. -/
theorem C3_check_availability_window :
    (∀ (appts : List Appointment) (t : Int) (p : Option Nat),
      check_availability appts t p = true ↔ ∀ a ∈ appts, ¬ ConflictsWith t p a) ∧
    check_availability
      [{ id := 1, project_id := some 1, scheduled_for := some 36000 }]
      38700 (some 1) = false ∧
    check_availability
      [{ id := 1, project_id := some 1, scheduled_for := some 36000 }]
      43201 (some 1) = true ∧
    check_availability
      [{ id := 1, project_id := some 1, scheduled_for := some 36000 }]
      37800 (some 2) = true := by
  refine ⟨?_, by decide, by decide, by decide⟩
  intro appts t p
  simp only [check_availability, Option.isNone_iff_eq_none, List.find?_eq_none,
    availabilityConflict_iff]

/-- Claim C4, counterexample.  The claim extends the base contract
    (null kwargs never overwrite) to every repository including the Lead
    repository; but LeadRepository.update drops the None check, so
    updating a lead with name=None erases the stored name. -/
theorem C4_lead_update_null_counterexample :
    getAttr (lead_update [("name", some "Ana"), ("email", some "ana@x.pe")]
      [("name", none)]) "name" ≠
    getAttr [("name", some "Ana"), ("email", some "ana@x.pe")] "name" := by
  decide

/-- Claim C4, amended.  Under BaseRepository.update, an attribute
    supplied only as None, or not supplied at all, keeps its prior value,
    and an attribute supplied with a non-None value is overwritten; but
    LeadRepository.update overrides the base method without the None
    check, and there a supplied None value does overwrite the stored
    value. -/
theorem C4_update_null_semantics_amended :
    (∀ (e : Entity) (kwargs : List (String × Option String)) (k : String),
      (∀ v, (k, v) ∈ kwargs → v = none) →
      getAttr (base_update e kwargs) k = getAttr e k) ∧
    (∀ (e : Entity) (k : String) (v : String),
      hasAttr e k = true →
      getAttr (base_update e [(k, some v)]) k = some (some v)) ∧
    (∀ (e : Entity) (k : String),
      hasAttr e k = true →
      getAttr (lead_update e [(k, none)]) k = some none) :=
  ⟨base_update_frame, base_update_overwrite, lead_update_null_overwrites⟩

/-- Claim C4, witness: the three parts of the amended statement applied
    to a concrete lead entity. -/
theorem C4_update_null_semantics_witness :
    getAttr (base_update [("name", some "Ana"), ("email", some "ana@x.pe")]
      [("name", none)]) "name" =
      getAttr [("name", some "Ana"), ("email", some "ana@x.pe")] "name" ∧
    getAttr (base_update [("name", some "Ana")] [("name", some "Bea")]) "name" =
      some (some "Bea") ∧
    getAttr (lead_update [("name", some "Ana")] [("name", none)]) "name" =
      some none := by
  refine ⟨C4_update_null_semantics_amended.1 _ _ _ ?_,
    C4_update_null_semantics_amended.2.1 _ _ _ (by decide),
    C4_update_null_semantics_amended.2.2 _ _ (by decide)⟩
  intro v hv
  simp only [List.mem_singleton] at hv
  exact congrArg Prod.snd hv

/-- Claim C5.  On a fresh conversation key, six add_message calls with
    conversation_history_limit = 5 leave exactly the five most recent
    messages in insertion order in get_history, and every add_message
    call sets the time-to-live of the key to 86400 seconds. -/
theorem C5_conversation_cache_history_ttl :
    (∀ m1 m2 m3 m4 m5 m6 : CachedMessage,
      get_history (List.foldl (add_message 5) { items := [], ttl := none }
        [m1, m2, m3, m4, m5, m6]) = [m2, m3, m4, m5, m6] ∧
      (List.foldl (add_message 5) { items := [], ttl := none }
        [m1, m2, m3, m4, m5, m6]).ttl = some 86400) ∧
    (∀ (s : ConvKeyState) (m : CachedMessage),
      (add_message 5 s m).ttl = some 86400) := by
  refine ⟨fun m1 m2 m3 m4 m5 m6 => ⟨?_, ?_⟩, fun s m => rfl⟩
  · simp [List.foldl, add_message, get_history]
  · simp [List.foldl, add_message]

/-- Claim C6.  Two queries equal after lower-casing, trimming and
    whitespace collapsing (that is, with the same normalize_query image)
    produce the same cache key for the same filters, and a get after a
    set under such an equivalent query returns the cached result list. -/
theorem C6_search_cache_key_normalization {α : Type} (q1 q2 : String)
    (filters : List (String × FilterValue)) (results : List α)
    (store : List (String × CacheEntryData α)) (now : String)
    (h : normalize_query q1 = normalize_query q2) :
    generate_cache_key q1 filters = generate_cache_key q2 filters ∧
    cache_get (cache_set store q1 results filters now) q2 filters = some results := by
  have hk : generate_cache_key q1 filters = generate_cache_key q2 filters := by
    unfold generate_cache_key
    rw [h]
  refine ⟨hk, ?_⟩
  unfold cache_get cache_set
  rw [List.find?_cons, hk]
  simp

/-- Claim C6, witness: the two query spellings of the claim with the
    Miraflores district filter. -/
theorem C6_search_cache_key_normalization_witness :
    normalize_query "  Departamento   2 Habitaciones  " =
      normalize_query "departamento 2 habitaciones" ∧
    generate_cache_key "  Departamento   2 Habitaciones  "
        [("district", FilterValue.str "Miraflores")] =
      generate_cache_key "departamento 2 habitaciones"
        [("district", FilterValue.str "Miraflores")] ∧
    cache_get
      (cache_set ([] : List (String × CacheEntryData Nat))
        "  Departamento   2 Habitaciones  " [7]
        [("district", FilterValue.str "Miraflores")] "2025-01-10T00:00:00")
      "departamento 2 habitaciones"
      [("district", FilterValue.str "Miraflores")] = some [7] := by
  have h : normalize_query "  Departamento   2 Habitaciones  " =
      normalize_query "departamento 2 habitaciones" := by decide
  have hc := C6_search_cache_key_normalization
    "  Departamento   2 Habitaciones  " "departamento 2 habitaciones"
    [("district", FilterValue.str "Miraflores")] [7]
    ([] : List (String × CacheEntryData Nat)) "2025-01-10T00:00:00" h
  exact ⟨h, hc.1, hc.2⟩

/-- Claim C7.  Price extraction: "busco algo de menos de $150,000" gives
    max_price 150000, "presupuesto desde 200mil" gives min_price 200000,
    the bare "depa de 180000" gives max_price 180000; in general a
    matched price with neither a max nor a min keyword in the text
    defaults to max_price (patterns tried grouped, short-suffix, bare in
    that order with the first match winning, per priceFromText). -/
theorem C7_price_extraction :
    (extract_filters_from_text "busco algo de menos de $150,000").max_price =
      some 150000 ∧
    (extract_filters_from_text "busco algo de menos de $150,000").min_price =
      none ∧
    (extract_filters_from_text "presupuesto desde 200mil").min_price =
      some 200000 ∧
    (extract_filters_from_text "presupuesto desde 200mil").max_price = none ∧
    (extract_filters_from_text "depa de 180000").max_price = some 180000 ∧
    (∀ (text : String) (price : Nat),
      priceFromText text = some price →
      containsAny (strLower text) maxPriceKeywords = false →
      containsAny (strLower text) minPriceKeywords = false →
      (extract_filters_from_text text).max_price = some (Int.ofNat price) ∧
      (extract_filters_from_text text).min_price = none) := by
  refine ⟨by decide, by decide, by decide, by decide, by decide, ?_⟩
  intro text price h1 h2 h3
  unfold extract_filters_from_text
  rw [h1]
  simp [h2, h3]

/-- Claim C7, witness: the default-to-max rule applied to the bare
    "depa de 180000". -/
theorem C7_price_extraction_witness :
    priceFromText "depa de 180000" = some 180000 ∧
    containsAny (strLower "depa de 180000") maxPriceKeywords = false ∧
    containsAny (strLower "depa de 180000") minPriceKeywords = false ∧
    (extract_filters_from_text "depa de 180000").max_price =
      some (Int.ofNat 180000) ∧
    (extract_filters_from_text "depa de 180000").min_price = none := by
  have h1 : priceFromText "depa de 180000" = some 180000 := by decide
  have h2 : containsAny (strLower "depa de 180000") maxPriceKeywords = false := by
    decide
  have h3 : containsAny (strLower "depa de 180000") minPriceKeywords = false := by
    decide
  have hc := C7_price_extraction.2.2.2.2.2 "depa de 180000" 180000 h1 h2 h3
  exact ⟨h1, h2, h3, hc.1, hc.2⟩

/-- Claim C8, counterexample.  The claim says get_by_name returns the
    first matching project and never fails when at least one project
    matches, including with several matches; but the query ends in
    scalar_one_or_none, so with two projects matching "torre" the call
    raises MultipleResultsFound instead of returning a project. -/
theorem C8_get_by_name_counterexample :
    ilikeContains (some "Torre Pacífico") "torre" = true ∧
    ilikeContains (some "Torre Surco") "torre" = true ∧
    get_by_name [{ id := 1, name := some "Torre Pacífico" },
                 { id := 2, name := some "Torre Surco" }] "torre" =
      Except.error "MultipleResultsFound" :=
  ⟨by decide, by decide, by rfl⟩

/-- Claim C8, amended.  get_by_name performs a case-insensitive
    substring match against project names and returns the unique
    matching project when exactly one matches, absent when none does,
    and raises MultipleResultsFound when several match. -/
theorem C8_get_by_name_amended (projects : List Project) (name : String) :
    (projects.filter (fun p => ilikeContains p.name name) = [] →
      get_by_name projects name = Except.ok none) ∧
    (∀ p, projects.filter (fun p => ilikeContains p.name name) = [p] →
      get_by_name projects name = Except.ok (some p)) ∧
    (2 ≤ (projects.filter (fun p => ilikeContains p.name name)).length →
      get_by_name projects name = Except.error "MultipleResultsFound") := by
  refine ⟨?_, ?_, ?_⟩
  · intro h
    unfold get_by_name
    rw [h]
  · intro p h
    unfold get_by_name
    rw [h]
  · intro h
    unfold get_by_name
    cases hf : projects.filter (fun p => ilikeContains p.name name) with
    | nil => rw [hf] at h; simp at h
    | cons a t =>
      cases t with
      | nil => rw [hf] at h; simp at h
      | cons b t2 => rfl

/-- Claim C8, witness: the three cases of the amended statement at
    concrete project tables. -/
theorem C8_get_by_name_amended_witness :
    get_by_name [] "torre" = Except.ok none ∧
    get_by_name [{ id := 1, name := some "Torre Pacífico" }] "torre" =
      Except.ok (some { id := 1, name := some "Torre Pacífico" }) ∧
    get_by_name [{ id := 1, name := some "Torre Pacífico" },
                 { id := 2, name := some "Torre Surco" }] "torre" =
      Except.error "MultipleResultsFound" := by
  refine ⟨(C8_get_by_name_amended [] "torre").1 (by decide),
    (C8_get_by_name_amended [{ id := 1, name := some "Torre Pacífico" }]
      "torre").2.1 _ (by decide),
    (C8_get_by_name_amended [{ id := 1, name := some "Torre Pacífico" },
      { id := 2, name := some "Torre Surco" }] "torre").2.2 (by decide)⟩

/-- Claim C9.  A filter entry whose value is 0 is dropped by the
    truthiness test, so search_by_filters and search_by_embedding with
    num_bedrooms = 0 (the value extracted for studio / estudio, as the
    last conjunct shows) return exactly what they return with no bedroom
    filter at all, and likewise for a max_price or min_price of 0. -/
theorem C9_zero_filters_dropped :
    ∀ (rows : List PropertyRow) (f : Filters) (skip limit : Nat)
      (dist : PropertyRow → Int),
    search_by_filters rows { f with num_bedrooms := some 0 } skip limit =
      search_by_filters rows { f with num_bedrooms := none } skip limit ∧
    search_by_embedding dist rows { f with num_bedrooms := some 0 } limit =
      search_by_embedding dist rows { f with num_bedrooms := none } limit ∧
    search_by_filters rows { f with max_price := some 0 } skip limit =
      search_by_filters rows { f with max_price := none } skip limit ∧
    search_by_filters rows { f with min_price := some 0 } skip limit =
      search_by_filters rows { f with min_price := none } skip limit ∧
    (extract_filters_from_text "busco un estudio en lima").num_bedrooms = some 0 :=
  fun _ _ _ _ _ => ⟨rfl, rfl, rfl, rfl, by decide⟩

/-- Claim C10.  Updating an appointment that has a project to a
    different time within one hour of its current time is always
    rejected with 409 and leaves the table unchanged: the availability
    query does not exclude the row being updated, which itself falls in
    the window around the new time. -/
theorem C10_update_within_hour_conflicts :
    ∀ (db : List Appointment) (aid : Nat) (A : Appointment) (p : Nat)
      (t tNew : Int) (newNotes : Option String),
    db.find? (fun a => a.id == aid) = some A →
    A.project_id = some p →
    A.scheduled_for = some t →
    tNew ≠ t →
    tNew - t ≤ 3600 →
    t - tNew ≤ 3600 →
    update_appointment db aid (some tNew) newNotes = (some 409, db) := by
  intro db aid A p t tNew newNotes hfind hproj hsched hne h1 h2
  have hmem : A ∈ db := List.mem_of_find?_eq_some hfind
  have hconf : availabilityConflict (tNew - 3600) (tNew + 3600) (some p) A = true := by
    unfold availabilityConflict
    rw [hsched, hproj]
    simp only [beq_self_eq_true, Bool.and_true, Bool.and_eq_true, decide_eq_true_eq]
    omega
  have hsome :
      (db.find? (availabilityConflict (tNew - 3600) (tNew + 3600) (some p))).isSome := by
    rw [List.find?_isSome]
    exact ⟨A, hmem, hconf⟩
  have hcheck : check_availability db tNew (some p) = false := by
    simp only [check_availability]
    cases hx : db.find? (availabilityConflict (tNew - 3600) (tNew + 3600) (some p)) with
    | none => rw [hx] at hsome; simp at hsome
    | some v => rfl
  have hbeq : (some tNew == A.scheduled_for) = false := by
    rw [hsched]
    simp [hne]
  simp only [update_appointment, hfind, hbeq, hproj, hcheck]
  rfl

/-- Claim C10, witness: an appointment at 36000 s for project 7 cannot
    be moved to 38700 s (45 minutes later). -/
theorem C10_update_within_hour_conflicts_witness :
    update_appointment
      [{ id := 1, project_id := some 7, scheduled_for := some 36000 }]
      1 (some 38700) none =
      (some 409, [{ id := 1, project_id := some 7, scheduled_for := some 36000 }]) :=
  C10_update_within_hour_conflicts _ 1
    { id := 1, project_id := some 7, scheduled_for := some 36000 }
    7 36000 38700 none (by decide) rfl rfl (by decide) (by decide) (by decide)
